import Mathlib

set_option linter.unusedVariables false

/-!
Shallow embedding of `src/main.py`, a FastAPI backend for a school website,
together with theorems settling the specification's claims about it.

Handlers that take no argument in the source are embedded as functions of
`Unit`, so that "on every call" statements can quantify over calls.
Raising `HTTPException` is embedded as the error branch of `Except`.
-/

namespace SchoolApi

/-- The characters Python's `str.isspace` (and hence argumentless
`str.strip`) treats as whitespace. -/
def isPySpace (c : Char) : Bool :=
  c = ' ' || c = '\t' || c = '\n' || c = '\u000b' || c = '\u000c' || c = '\r' ||
  c = '\u001c' || c = '\u001d' || c = '\u001e' || c = '\u001f' ||
  c = '\u0085' || c = '\u00a0' || c = '\u1680' ||
  ('\u2000' ≤ c && c ≤ '\u200a') ||
  c = '\u2028' || c = '\u2029' || c = '\u202f' || c = '\u205f' || c = '\u3000'

/-- Python `s.strip()`: drop whitespace from both ends of the string. -/
def pyStrip (s : String) : String :=
  ⟨((s.data.dropWhile isPySpace).reverse.dropWhile isPySpace).reverse⟩

/-- Python `s.replace(a, b)` specialised to a single-character pattern,
where it coincides with a character-wise map (occurrences of a
one-character pattern are exactly the positions of that character). -/
def pyReplaceChar (s : String) (a b : Char) : String :=
  ⟨s.data.map (fun c => if c = a then b else c)⟩

/-- `class ContactRequest(BaseModel)` from `src/main.py` (lines 28-32):
`name` and `message` required strings, `email` and `phone` optional
(`None` when absent). -/
structure ContactRequest where
  name : String
  email : Option String := none
  phone : Option String := none
  message : String
deriving DecidableEq, Repr

/-- FastAPI's `HTTPException(status_code=..., detail=...)`. -/
structure HTTPException where
  status_code : Nat
  detail : String
deriving DecidableEq, Repr

/-- The `received` object in the success payload of POST `/api/contact`. -/
structure ContactReceived where
  name : String
  email : Option String
  phone : Option String
deriving DecidableEq, Repr

/-- The success payload of POST `/api/contact`. -/
structure ContactResponse where
  status : String
  received : ContactReceived
  message : String
deriving DecidableEq, Repr

/-- `submit_contact` from `src/main.py` (lines 65-83): reject with a 400
`HTTPException` when the stripped message is shorter than 5 characters,
otherwise echo the payload back with a fixed acknowledgment message. -/
def submit_contact (payload : ContactRequest) : Except HTTPException ContactResponse :=
  if (pyStrip payload.message).length < 5 then
    .error ⟨400, "Le message est trop court."⟩
  else
    .ok { status := "ok"
          received := { name := payload.name
                        email := payload.email
                        phone := payload.phone }
          message := "Merci pour votre message. Nous vous contacterons bientôt." }

/-- `class SchoolInfo(BaseModel)` from `src/main.py` (lines 18-25). -/
structure SchoolInfo where
  name : String := "École"
  address : String
  phone : String
  hours_label : String
  city : Option String := none
  country : Option String := none
  maps_url : Option String := none
deriving DecidableEq, Repr

/-- `get_school_info` from `src/main.py` (lines 45-62): fixed school data,
with `maps_url` built from the address via `address.replace(" ", "+")`
spliced into the Google Maps search URL template. -/
def get_school_info (u : Unit) : SchoolInfo :=
  let address := "58 Bd Ibnou Sina, Casablanca 20210"
  let phone := "05229-44803"
  let hours := "Ouvert · Ferme à 18h"
  let maps_q := pyReplaceChar address ' ' '+'
  let maps_url := "https://www.google.com/maps/search/?api=1&query=" ++ maps_q
  { name := "École Ibnou Sina"
    address := address
    phone := phone
    hours_label := hours
    city := some "Casablanca"
    country := some "Maroc"
    maps_url := some maps_url }

/-- The `{message: string}` payload returned by GET `/` and GET `/api/hello`. -/
structure MessagePayload where
  message : String
deriving DecidableEq, Repr

/-- `read_root` from `src/main.py` (lines 35-37), the GET `/` handler. -/
def read_root (u : Unit) : MessagePayload :=
  { message := "Hello from FastAPI Backend!" }

/-- `hello` from `src/main.py` (lines 40-42), the GET `/api/hello` handler. -/
def hello (u : Unit) : MessagePayload :=
  { message := "Hello from the backend API!" }

/-- Modelled from the spec's words only, for comparison with the source
(claim C9): "percent-space-encoding", i.e. replacing each space of the
address with the percent escape "%20". -/
def percentSpaceEncode (s : String) : String :=
  ⟨(s.data.map (fun c => if c = ' ' then "%20".data else [c])).flatten⟩

/-- The optional external database handle `db` exposed by the optional
`database` module: `name` is `some` exactly when `hasattr(db, 'name')`,
and `list_collection_names` either returns the collection names or raises
an exception carrying the message `str(e)`. -/
structure DbHandle where
  name : Option String
  list_collection_names : Except String (List String)

/-- Runtime availability of the `database` module in `src/main.py`
(line 100, `from database import db`): the import may fail with
`ImportError`, raise some other exception with message `str(e)`, or
succeed and bind `db`, which may itself be `None`. -/
inductive DatabaseModule where
  | importError : DatabaseModule
  | importRaised (msg : String) : DatabaseModule
  | imported (db : Option DbHandle) : DatabaseModule

/-- The process environment as seen by `os.getenv`: `none` when a variable
is unset, `some v` when it is set to the string `v`. -/
structure Env where
  DATABASE_URL : Option String
  DATABASE_NAME : Option String

/-- Python truthiness of an `os.getenv` result: `None` and the empty
string are falsy, any other string is truthy. -/
def truthy : Option String → Bool
  | none => false
  | some s => s != ""

/-- The JSON object built by `test_database` in `src/main.py`
(lines 89-96): `database_url` and `database_name` start as `None`
(embedded as `Option String`) and are overwritten with strings before the
handler returns. -/
structure DiagnosticReport where
  backend : String
  database : String
  database_url : Option String
  database_name : Option String
  connection_status : String
  collections : List String
deriving DecidableEq, Repr

/-- An HTTP response as produced by the framework for a handler that
returns normally: status code 200 with the returned body. -/
structure HttpResponse (α : Type) where
  status_code : Nat
  body : α
deriving DecidableEq, Repr

/-- `test_database` from `src/main.py` (lines 86-128): build the default
report, probe the optional database module (every failure path is caught
and written into the `database` field as a status string), then overwrite
`database_url` and `database_name` from the two environment variables.
The handler returns normally in every case, so the framework responds
with status 200. -/
def test_database (env : Env) (mod : DatabaseModule) : HttpResponse DiagnosticReport :=
  let response : DiagnosticReport :=
    { backend := "✅ Running"
      database := "❌ Not Available"
      database_url := none
      database_name := none
      connection_status := "Not Connected"
      collections := [] }
  let response :=
    match mod with
    | .imported (some db) =>
        let response :=
          { response with
            database := "✅ Available"
            database_url := some "✅ Configured"
            database_name := some (db.name.getD "✅ Connected")
            connection_status := "Connected" }
        match db.list_collection_names with
        | .ok collections =>
            { response with
              collections := collections.take 10
              database := "✅ Connected & Working" }
        | .error e =>
            { response with database := "⚠️  Connected but Error: " ++ e.take 50 }
    | .imported none =>
        { response with database := "⚠️  Available but not initialized" }
    | .importError =>
        { response with database := "❌ Database module not found (run enable-database first)" }
    | .importRaised e =>
        { response with database := "❌ Error: " ++ e.take 50 }
  let response :=
    { response with
      database_url := some (if truthy env.DATABASE_URL then "✅ Set" else "❌ Not Set")
      database_name := some (if truthy env.DATABASE_NAME then "✅ Set" else "❌ Not Set") }
  ⟨200, response⟩

end SchoolApi

namespace SchoolApi

/-- Claim C1: for every `ContactRequest` whose message, after trimming
whitespace, has length at least 5, POST `/api/contact` succeeds with
status "ok", a `received` object echoing `name`, `email` and `phone`
verbatim (the optional fields being `none` exactly when absent), and the
fixed acknowledgment message. -/
theorem submit_contact_success (p : ContactRequest)
    (h : 5 ≤ (pyStrip p.message).length) :
    submit_contact p =
      .ok { status := "ok"
            received := { name := p.name, email := p.email, phone := p.phone }
            message := "Merci pour votre message. Nous vous contacterons bientôt." } := by
  unfold submit_contact
  rw [if_neg (Nat.not_lt.mpr h)]

/-- Witness for C1: the spec's own example scenario, evaluated concretely. -/
theorem submit_contact_success_witness :
    submit_contact ⟨"Amal", none, none, "Bonjour, je voudrais des infos."⟩ =
      .ok ⟨"ok", ⟨"Amal", none, none⟩,
        "Merci pour votre message. Nous vous contacterons bientôt."⟩ :=
  submit_contact_success ⟨"Amal", none, none, "Bonjour, je voudrais des infos."⟩
    (by decide)

/-- Claim C2: for every `ContactRequest` whose trimmed message has length
less than 5 (including the empty message), POST `/api/contact` fails with
a 400 error whose detail is exactly "Le message est trop court.", and no
such request is accepted. -/
theorem submit_contact_reject (p : ContactRequest)
    (h : (pyStrip p.message).length < 5) :
    submit_contact p = .error ⟨400, "Le message est trop court."⟩ ∧
    ∀ r : ContactResponse, submit_contact p ≠ .ok r := by
  have he : submit_contact p = .error ⟨400, "Le message est trop court."⟩ := by
    unfold submit_contact
    rw [if_pos h]
  exact ⟨he, fun r hr => by rw [he] at hr; exact Except.noConfusion hr⟩

/-- Witness for C2: the spec's own too-short example, evaluated concretely. -/
theorem submit_contact_reject_witness :
    submit_contact ⟨"Amal", none, none, "Hi"⟩ =
      .error ⟨400, "Le message est trop court."⟩ :=
  (submit_contact_reject ⟨"Amal", none, none, "Hi"⟩ (by decide)).1

/-- Claim C10: no validation is applied to `name` (or `phone`) beyond
presence and type: any request with a long-enough message is accepted even
with empty-string `name` and/or `phone`, and those values are echoed back
verbatim. -/
theorem submit_contact_empty_name_accepted (email phone : Option String)
    (msg : String) (h : 5 ≤ (pyStrip msg).length) :
    submit_contact ⟨"", email, phone, msg⟩ =
      .ok ⟨"ok", ⟨"", email, phone⟩,
        "Merci pour votre message. Nous vous contacterons bientôt."⟩ ∧
    submit_contact ⟨"", email, some "", msg⟩ =
      .ok ⟨"ok", ⟨"", email, some ""⟩,
        "Merci pour votre message. Nous vous contacterons bientôt."⟩ :=
  ⟨submit_contact_success ⟨"", email, phone, msg⟩ h,
   submit_contact_success ⟨"", email, some "", msg⟩ h⟩

/-- Witness for C10: empty name and empty phone string, message long
enough, evaluated concretely. -/
theorem submit_contact_empty_name_accepted_witness :
    submit_contact ⟨"", none, some "", "Bonjour tout le monde"⟩ =
      .ok ⟨"ok", ⟨"", none, some ""⟩,
        "Merci pour votre message. Nous vous contacterons bientôt."⟩ :=
  (submit_contact_empty_name_accepted none (some "") "Bonjour tout le monde"
    (by decide)).2

/-- Claim C4: the `maps_url` field of GET `/api/info` is exactly the fixed
address with every space replaced by a plus sign, spliced into the Google
Maps search URL template — the literal string below. -/
theorem maps_url_literal (u : Unit) :
    (get_school_info u).maps_url =
      some "https://www.google.com/maps/search/?api=1&query=58+Bd+Ibnou+Sina,+Casablanca+20210" ∧
    (get_school_info u).maps_url =
      some ("https://www.google.com/maps/search/?api=1&query=" ++
        pyReplaceChar (get_school_info u).address ' ' '+') := by
  cases u
  constructor <;> decide

/-- Claim C5: every call to GET `/api/info` returns the same fixed
`SchoolInfo` values for name, address, phone, hours label, city and
country. -/
theorem school_info_fixed (u v : Unit) :
    (get_school_info u).name = "École Ibnou Sina" ∧
    (get_school_info u).address = "58 Bd Ibnou Sina, Casablanca 20210" ∧
    (get_school_info u).phone = "05229-44803" ∧
    (get_school_info u).hours_label = "Ouvert · Ferme à 18h" ∧
    (get_school_info u).city = some "Casablanca" ∧
    (get_school_info u).country = some "Maroc" ∧
    get_school_info u = get_school_info v := by
  cases u; cases v
  refine ⟨?_, ?_, ?_, ?_, ?_, ?_, rfl⟩ <;> decide

/-- Claim C8: GET `/` and GET `/api/hello` each return one fixed
`{message: string}` payload, the same on every call. -/
theorem hello_endpoints_fixed (u v : Unit) :
    read_root u = { message := "Hello from FastAPI Backend!" } ∧
    hello u = { message := "Hello from the backend API!" } ∧
    read_root u = read_root v ∧
    hello u = hello v :=
  ⟨rfl, rfl, rfl, rfl⟩

/-- Counterexample to claim C9 as stated: the `maps_url` of GET `/api/info`
is NOT the address with its spaces percent-encoded (replaced by "%20")
spliced into the Google Maps URL template — the code uses "+" instead. -/
theorem maps_url_not_percent_encoded :
    (get_school_info ()).maps_url ≠
      some ("https://www.google.com/maps/search/?api=1&query=" ++
        percentSpaceEncode ((get_school_info ()).address)) := by
  decide

/-- Claim C9 (amended): the `maps_url` of GET `/api/info` is present and is
derived deterministically from the `address` field by replacing each space
with a plus sign; the result is an https URL (prefix "https://")
containing no space. -/
theorem maps_url_derived_from_address (u : Unit) :
    (get_school_info u).maps_url =
      some ("https://www.google.com/maps/search/?api=1&query=" ++
        pyReplaceChar (get_school_info u).address ' ' '+') ∧
    (∀ c ∈ (((get_school_info u).maps_url).getD "").data, c ≠ ' ') ∧
    "https://".data.isPrefixOf (((get_school_info u).maps_url).getD "").data := by
  cases u
  refine ⟨?_, ?_, ?_⟩ <;> decide

/-- Helper: a string append is non-empty when its left part is. -/
theorem append_ne_empty_left (s t : String) (h : s ≠ "") : s ++ t ≠ "" := by
  obtain ⟨a⟩ := s
  obtain ⟨b⟩ := t
  intro hc
  have hab : a ++ b = ([] : List Char) := congrArg String.data hc
  rcases List.append_eq_nil.mp hab with ⟨ha, -⟩
  subst ha
  exact h rfl

/-- Helper: the `database` field of the `/test` report, as a function of
the probe outcome. -/
theorem test_database_database_field (env : Env) (mod : DatabaseModule) :
    (test_database env mod).body.database =
      match mod with
      | .importError => "❌ Database module not found (run enable-database first)"
      | .importRaised e => "❌ Error: " ++ e.take 50
      | .imported none => "⚠️  Available but not initialized"
      | .imported (some db) =>
          match db.list_collection_names with
          | .ok _ => "✅ Connected & Working"
          | .error e => "⚠️  Connected but Error: " ++ e.take 50 := by
  cases mod with
  | importError => rfl
  | importRaised e => rfl
  | imported db =>
    cases db with
    | none => rfl
    | some dbh =>
      cases h : dbh.list_collection_names <;> simp [test_database, h]

/-- Claim C3: GET `/test` never fails: for every combination of
environment variables and database-module availability (module absent,
failing to load, or present with `db` either `None`, usable, or
raising on `list_collection_names`), the handler returns a 200 response,
and the `database` status field of its body is a non-empty descriptive
string. -/
theorem test_database_never_fails (env : Env) (mod : DatabaseModule) :
    (test_database env mod).status_code = 200 ∧
    (test_database env mod).body.database ≠ "" := by
  refine ⟨rfl, ?_⟩
  rw [test_database_database_field]
  cases mod with
  | importError => decide
  | importRaised e => exact append_ne_empty_left _ _ (by decide)
  | imported db =>
    cases db with
    | none => decide
    | some dbh =>
      show (match dbh.list_collection_names with
            | Except.ok _ => "✅ Connected & Working"
            | Except.error e => "⚠️  Connected but Error: " ++ e.take 50) ≠ ""
      cases dbh.list_collection_names with
      | ok names =>
        show ("✅ Connected & Working" : String) ≠ ""
        decide
      | error e => exact append_ne_empty_left _ _ (by decide)

/-- Claim C6 (amended): the `database_url` and `database_name` fields of
the `/test` report record exactly whether the corresponding environment
variables are set to a non-empty value — "✅ Set" when they are,
"❌ Not Set" otherwise (in particular when neither is set) — and they
depend only on the environment variables, not on the database probe
outcome. -/
theorem test_database_env_fields (env : Env) (mod : DatabaseModule) :
    (test_database env mod).body.database_url =
      some (if truthy env.DATABASE_URL then "✅ Set" else "❌ Not Set") ∧
    (test_database env mod).body.database_name =
      some (if truthy env.DATABASE_NAME then "✅ Set" else "❌ Not Set") :=
  ⟨rfl, rfl⟩

/-- Counterexample to claim C6 as stated: an environment in which
DATABASE_URL and DATABASE_NAME are both set — to the empty string — yet
the report fields read "❌ Not Set", because the code tests Python
truthiness of `os.getenv`, not whether the variable is set. -/
theorem test_database_env_fields_counterexample :
    (⟨some "", some ""⟩ : Env).DATABASE_URL ≠ none ∧
    (⟨some "", some ""⟩ : Env).DATABASE_NAME ≠ none ∧
    (test_database ⟨some "", some ""⟩ .importError).body.database_url =
      some "❌ Not Set" ∧
    (test_database ⟨some "", some ""⟩ .importError).body.database_name =
      some "❌ Not Set" := by
  refine ⟨by decide, by decide, rfl, rfl⟩

/-- Claim C7: when the database module is imported and `db` is not `None`:
if `list_collection_names` raises with message `e`, the `database` field
reports the error message truncated to its first 50 characters (after the
fixed "Connected but Error" marker); if it succeeds, the `collections`
field holds at most the first 10 collection names in order and the
`database` field is the "connected & working" status. -/
theorem test_database_db_present (env : Env) (db : DbHandle) :
    (test_database env (.imported (some db))).body.database =
      (match db.list_collection_names with
       | .ok _ => "✅ Connected & Working"
       | .error e => "⚠️  Connected but Error: " ++ e.take 50) ∧
    (test_database env (.imported (some db))).body.collections =
      (match db.list_collection_names with
       | .ok names => names.take 10
       | .error _ => []) := by
  cases h : db.list_collection_names <;> simp [test_database, h]

end SchoolApi
